import Mathlib

/-!
Verification development for the `reckon` repository: a shallow embedding of
`DB.py`, `decorators.py` and `basic_index_performance.py`, together with
theorems settling the specification claims about them.

Conventions of the embedding:
* Python `None` / optional arguments become `Option`; Python falsiness of a
  string is emptiness, of an int is being zero.
* The database engine is modelled by an explicit state (`DBState`) holding the
  tables (an association list from name to `Table`) and the indexes; each SQL
  statement (`Stmt`) is interpreted by `execStmt`.  A statement sent over a
  connection is also recorded as an `Event`, so that traces can be examined.
* Exceptions become `Except`; an error result means the Python exception
  propagates out of the function and nothing further runs.
* Wall-clock readings and `random.randint` draws are external nondeterminism
  and are supplied as oracle streams (`times : Nat → ℚ`, `rand : Nat → Nat`).
-/

namespace Reckon

/-- A single-quote character, used when reproducing the f-string
`The error ... occurred` printed by `create_connection`. -/
def sq : String := String.singleton (Char.ofNat 39)

/-! ## Model of `DB.py` -/

/-- Python value that is either a string or an integer; `os.getenv("DB_PORT", 5432)`
returns a string when the variable is set and the int `5432` otherwise. -/
inductive PyStrInt : Type
  | str (s : String)
  | int (n : Int)
  deriving DecidableEq

/-- Python truthiness for `PyStrInt`: a string is truthy iff nonempty, an int
iff nonzero. -/
def pyTruthy : PyStrInt → Bool
  | PyStrInt.str s => !(s == "")
  | PyStrInt.int n => !(n == 0)

/-- Python `a or b` for an optional string argument `a` (absent or `None`
maps to `none`; the empty string is falsy). -/
def pyOr (arg : Option String) (fallback : String) : String :=
  match arg with
  | none => fallback
  | some s => if s = "" then fallback else s

/-- Python `a or b` where `a` is an optional string-or-int value. -/
def pyOrSI (arg : Option PyStrInt) (fallback : PyStrInt) : PyStrInt :=
  match arg with
  | none => fallback
  | some v => if pyTruthy v then v else fallback

/-- Model of `os.getenv(name, default)` over an environment `env`. -/
def getenv (env : String → Option String) (name dflt : String) : String :=
  match env name with
  | some v => v
  | none => dflt

/-- The keyword parameters handed to `psycopg2.connect` by `create_connection`. -/
structure ConnParams where
  database : String
  user : String
  password : String
  host : String
  port : PyStrInt
  deriving DecidableEq

/-- Parameter resolution performed at the top of `create_connection`:
each argument falls back, via Python `or`, to the environment variable and
then to the fixed default (`postgres`/`postgres`/`postgres`/`localhost`/`5432`). -/
def resolveParams (dn du dp dh : Option String) (dpo : Option PyStrInt)
    (env : String → Option String) : ConnParams :=
  { database := pyOr dn (getenv env "DB_NAME" "postgres")
    user := pyOr du (getenv env "DB_USER" "postgres")
    password := pyOr dp (getenv env "DB_PASSWORD" "postgres")
    host := pyOr dh (getenv env "DB_HOST" "localhost")
    port := pyOrSI dpo (match env "DB_PORT" with
                        | some v => PyStrInt.str v
                        | none => PyStrInt.int 5432) }

/-- Possible outcomes of the `psycopg2.connect` call: a live connection
(identified by a `Nat` handle), an `OperationalError`, or any other
exception. -/
inductive ConnectOutcome : Type
  | success (c : Nat)
  | opError (msg : String)
  | otherError (msg : String)
  deriving DecidableEq

/-- Model of `DB.create_connection`.  The behaviour of `psycopg2.connect` is an
oracle `connect` mapping the resolved parameters to an outcome.  The result is
the list of lines printed to standard output together with either the returned
value (`some` handle on success, `none` — the unusable handle — after a caught
`OperationalError`) or, for any other exception, the propagating error. -/
def create_connection (dn du dp dh : Option String) (dpo : Option PyStrInt)
    (env : String → Option String) (connect : ConnParams → ConnectOutcome) :
    List String × Except String (Option Nat) :=
  match connect (resolveParams dn du dp dh dpo env) with
  | ConnectOutcome.success c =>
      (["Connection to PostgreSQL DB successful"], Except.ok (some c))
  | ConnectOutcome.opError e =>
      (["The error " ++ sq ++ e ++ sq ++ " occurred"], Except.ok none)
  | ConnectOutcome.otherError e => ([], Except.error e)

/-! ## Model of `decorators.py` -/

/-- The world as seen by a timed callable: the current value of
`time.perf_counter`, the rest of the world, and a counter of how many times
the wrapped callable has been invoked (used to state the exactly-once
property). -/
structure TWorld (σ : Type) where
  time : ℚ
  world : σ
  calls : Nat
  deriving DecidableEq

/-- Model of the `get_execution_time` decorator: the wrapper reads the clock,
invokes the wrapped callable once, reads the clock again and returns the
elapsed time multiplied by 1000, discarding the value the callable returned. -/
def get_execution_time {α σ ρ : Type} (method : α → TWorld σ → TWorld σ × ρ) :
    α → TWorld σ → TWorld σ × ℚ :=
  fun a w =>
    let t1 := w.time
    let p := method a w
    let t2 := p.1.time
    (p.1, (t2 - t1) * 1000)

/-- Model of the `print_execution_time` decorator: same timing, but the
elapsed time is printed (returned here as the printed line) and the wrapper
returns nothing. -/
def print_execution_time {α σ ρ : Type} (method : α → TWorld σ → TWorld σ × ρ) :
    α → TWorld σ → TWorld σ × String :=
  fun a w =>
    let t1 := w.time
    let p := method a w
    let t2 := p.1.time
    (p.1, "Time taken: " ++ toString ((t2 - t1) * 1000) ++ " ms")

/-! ## Model of `basic_index_performance.py`: database state -/

/-- Errors that can propagate out of the Python helpers: iterating `None`
(`TypeError`), `statistics.mean` on empty data (`StatisticsError`), and the
database errors raised by the engine for DDL/DML on the wrong state. -/
inductive Err : Type
  | typeError
  | statisticsError
  | duplicateTable
  | noSuchTable
  | duplicateIndex
  deriving DecidableEq

/-- A table as created by `create_table`: its column list (name and SQL type,
as in the DDL string), its rows as `(id, value)` pairs, and the next value of
the serial `id` sequence. -/
structure Table where
  schema : List (String × String)
  rows : List (Nat × Nat)
  nextId : Nat
  deriving DecidableEq

/-- The whole database: tables keyed by name, and indexes as
`(index name, table name, column name)` triples. -/
structure DBState where
  tables : List (String × Table)
  indexes : List (String × String × String)
  deriving DecidableEq

/-- Association-list lookup by table/index name (first match). -/
def alookup {β : Type} (n : String) : List (String × β) → Option β
  | [] => none
  | p :: ps => if p.1 = n then some p.2 else alookup n ps

/-- Remove the table entries named `tn`. -/
def filtT (tn : String) : List (String × Table) → List (String × Table)
  | [] => []
  | p :: ps => if p.1 = tn then filtT tn ps else p :: filtT tn ps

/-- Remove the index entries that live on table `tn` (dropping a table
cascades to its indexes). -/
def filtI (tn : String) : List (String × String × String) → List (String × String × String)
  | [] => []
  | p :: ps => if p.2.1 = tn then filtI tn ps else p :: filtI tn ps

/-- Remove the index entries named `i` (for `DROP INDEX IF EXISTS`). -/
def filtIdx (i : String) : List (String × String × String) → List (String × String × String)
  | [] => []
  | p :: ps => if p.1 = i then filtIdx i ps else p :: filtIdx i ps

/-- Replace the table named `tn` by `tb` (the effect of a write to it). -/
def setTable (tn : String) (tb : Table) : List (String × Table) → List (String × Table)
  | [] => []
  | p :: ps => if p.1 = tn then (tn, tb) :: setTable tn tb ps else p :: setTable tn tb ps

/-- The table right after `CREATE TABLE t (id serial PRIMARY KEY, value INTEGER)`:
the two declared columns, no rows, serial sequence starting at 1. -/
def freshTable : Table :=
  { schema := [("id", "serial PRIMARY KEY"), ("value", "INTEGER")]
    rows := []
    nextId := 1 }

/-- Bulk insertion of values into the `value` column: each value receives the
next serial `id`. -/
def insertAll (tb : Table) (vals : List Nat) : Table :=
  vals.foldl (fun t v => { t with rows := t.rows ++ [(t.nextId, v)], nextId := t.nextId + 1 }) tb

/-- The SQL statements the script sends, one constructor per statement shape. -/
inductive Stmt : Type
  | dropTableIfExists (t : String)
  | createTable (t : String)
  | createIndex (i t col : String)
  | dropIndexIfExists (i : String)
  | insertValues (t : String) (vals : List Nat)
  | select (t : String) (v : Nat)
  deriving DecidableEq

/-- Events observable on the database side: opening a connection, closing it,
and executing a statement over a connection (connections are `Nat` handles). -/
inductive Event : Type
  | connect (c : Nat)
  | close (c : Nat)
  | sql (c : Nat) (s : Stmt)
  deriving DecidableEq

/-- The connection handle an event concerns. -/
def connOf : Event → Nat
  | Event.connect c => c
  | Event.close c => c
  | Event.sql c _ => c

/-- Whether an event opens a connection. -/
def isConnect : Event → Bool
  | Event.connect _ => true
  | _ => false

/-- Whether an event closes a connection. -/
def isClose : Event → Bool
  | Event.close _ => true
  | _ => false

/-- Interpretation of one SQL statement by the database engine. -/
def execStmt : Stmt → DBState → Except Err DBState
  | Stmt.dropTableIfExists t, s =>
      Except.ok { tables := filtT t s.tables, indexes := filtI t s.indexes }
  | Stmt.createTable t, s =>
      match alookup t s.tables with
      | some _ => Except.error Err.duplicateTable
      | none => Except.ok { s with tables := (t, freshTable) :: s.tables }
  | Stmt.createIndex i t col, s =>
      match alookup t s.tables with
      | none => Except.error Err.noSuchTable
      | some _ =>
          match alookup i s.indexes with
          | some _ => Except.error Err.duplicateIndex
          | none => Except.ok { s with indexes := (i, t, col) :: s.indexes }
  | Stmt.dropIndexIfExists i, s =>
      Except.ok { s with indexes := filtIdx i s.indexes }
  | Stmt.insertValues t vals, s =>
      match alookup t s.tables with
      | none => Except.error Err.noSuchTable
      | some tb => Except.ok { s with tables := setTable t (insertAll tb vals) s.tables }
  | Stmt.select t _, s =>
      match alookup t s.tables with
      | none => Except.error Err.noSuchTable
      | some _ => Except.ok s

/-! ## Model of `basic_index_performance.py`: the helper functions

Each Python helper becomes a function `DBState → List Event × Except Err DBState`:
the events it sent to the database, and either the resulting state or the
propagating exception. -/

/-- Execute one statement over connection `c`: one event, one state change. -/
def exec1 (c : Nat) (st : Stmt) : DBState → List Event × Except Err DBState :=
  fun s => ([Event.sql c st], execStmt st s)

/-- Sequencing of two helpers: the second runs only if the first did not
raise; events accumulate. -/
def seqRun (f g : DBState → List Event × Except Err DBState) :
    DBState → List Event × Except Err DBState :=
  fun s =>
    match f s with
    | (es, Except.ok s1) =>
        match g s1 with
        | (es2, r) => (es ++ es2, r)
    | (es, Except.error e) => (es, Except.error e)

/-- The do-nothing helper (an absent optional step). -/
def idRun : DBState → List Event × Except Err DBState := fun s => ([], Except.ok s)

/-- `create_table(conn, table_name)`: drop the table if it exists, then create
it with columns `id serial PRIMARY KEY` and `value INTEGER`. -/
def create_table (c : Nat) (tn : String) : DBState → List Event × Except Err DBState :=
  seqRun (exec1 c (Stmt.dropTableIfExists tn)) (exec1 c (Stmt.createTable tn))

/-- `drop_table(conn, table_name)`: drop the table if it exists. -/
def drop_table (c : Nat) (tn : String) : DBState → List Event × Except Err DBState :=
  exec1 c (Stmt.dropTableIfExists tn)

/-- `insert_single_row(conn, table_name, value)`. -/
def insert_single_row (c : Nat) (tn : String) (v : Nat) :
    DBState → List Event × Except Err DBState :=
  exec1 c (Stmt.insertValues tn [v])

/-- `insert_multiple_rows(conn, table_name, values, batch_size)`.  The list
comprehension `[(val,) for val in values]` iterates `values` before anything is
sent to the database, so `values=None` raises `TypeError` with no event
emitted.  `batch_size` only sets the client-side page size of
`execute_values` and does not affect the statement semantics. -/
def insert_multiple_rows (c : Nat) (tn : String) (values : Option (List Nat))
    (batch_size : Nat) : DBState → List Event × Except Err DBState :=
  fun s =>
    match values with
    | none => ([], Except.error Err.typeError)
    | some vs => ([Event.sql c (Stmt.insertValues tn vs)], execStmt (Stmt.insertValues tn vs) s)

/-- `find_rows(conn, table_name, value)`: the point lookup
`SELECT * FROM t WHERE VALUE=%s`. -/
def find_rows (c : Nat) (tn : String) (v : Nat) : DBState → List Event × Except Err DBState :=
  exec1 c (Stmt.select tn v)

/-- `create_index(conn, table_name, index_name)`: index the `value` column;
the index name defaults, via Python `or`, to `table_name + "_value_idx"`. -/
def create_index (c : Nat) (tn : String) (index_name : Option String) :
    DBState → List Event × Except Err DBState :=
  exec1 c (Stmt.createIndex (pyOr index_name (tn ++ "_value_idx")) tn "value")

/-- `drop_index(conn, index_name)`. -/
def drop_index (c : Nat) (index_name : Option String) :
    DBState → List Event × Except Err DBState :=
  exec1 c (Stmt.dropIndexIfExists (pyOr index_name "test_table_value_idx"))

/-- Body of `create_rows(conn, num_rows, db_index, batch_size)` (the function
under the `get_execution_time` decorator): recreate `test_table`, optionally
index it, and insert the values `list(range(num_rows))`. -/
def create_rows (c : Nat) (num_rows : Nat) (db_index : Bool) (batch_size : Nat) :
    DBState → List Event × Except Err DBState :=
  seqRun (create_table c "test_table")
    (seqRun (if db_index then create_index c "test_table" none else idRun)
      (insert_multiple_rows c "test_table" (some (List.range num_rows)) batch_size))

/-- Body of `find_value(conn, value)` (under the `get_execution_time`
decorator): `find_rows(conn, value=(value,))`. -/
def find_value (c : Nat) (v : Nat) : DBState → List Event × Except Err DBState :=
  find_rows c "test_table" v

/-- The set of possible results of `random.randint(a, b)`: the integers of the
inclusive range `[a, b]`. -/
def randintOutcomes (a b : Nat) : List Nat := List.range' a (b + 1 - a)

/-! ## Model of `metrics` and of the script main block -/

/-- `statistics.mean`, which raises `StatisticsError` on empty data. -/
def mean (xs : List ℚ) : Except Err ℚ :=
  match xs with
  | [] => Except.error Err.statisticsError
  | _ => Except.ok (xs.sum / (xs.length : ℚ))

/-- The arithmetic mean as a total function (meaningful for nonempty lists). -/
def meanV (xs : List ℚ) : ℚ := xs.sum / (xs.length : ℚ)

/-- The running state of a `metrics` call: database, events sent, lines
printed, the four series of timing samples, the reported aggregate of each
series (once computed), and a pending exception. -/
structure MState where
  db : DBState
  events : List Event
  printed : List String
  wWith : List ℚ
  wWithout : List ℚ
  fWith : List ℚ
  fWithout : List ℚ
  rWWith : Option ℚ
  rWWithout : Option ℚ
  rFWith : Option ℚ
  rFWithout : Option ℚ
  err : Option Err
  deriving DecidableEq

/-- One iteration of the experiment loop of `metrics`: create `num_rows` rows
with an index and time it, look a random value up and time it, then the same
without the index.  `rand n` is the result of the `n`-th `random.randint`
draw of this `metrics` call and `times n` the elapsed time reported by the
`n`-th timed call. -/
def stepIter (c nr : Nat) (rand : Nat → Nat) (times : Nat → ℚ) (i : Nat)
    (st : MState) : MState :=
  match st.err with
  | some _ => st
  | none =>
    let st1 := { st with printed := st.printed ++
        ["Running iteration " ++ toString i,
         "Creating " ++ toString nr ++ " rows with index"] }
    match create_rows c nr true 1000 st1.db with
    | (es, Except.error e) => { st1 with events := st1.events ++ es, err := some e }
    | (es, Except.ok db1) =>
      let st2 := { st1 with
        db := db1
        events := st1.events ++ es
        wWith := st1.wWith ++ [times (4*i)]
        printed := st1.printed ++ ["Finding value in " ++ toString nr ++ " rows with index"] }
      match find_value c (rand (2*i)) st2.db with
      | (es, Except.error e) => { st2 with events := st2.events ++ es, err := some e }
      | (es, Except.ok db2) =>
        let st3 := { st2 with
          db := db2
          events := st2.events ++ es
          fWith := st2.fWith ++ [times (4*i+1)]
          printed := st2.printed ++ ["Creating " ++ toString nr ++ " rows without index"] }
        match create_rows c nr false 1000 st3.db with
        | (es, Except.error e) => { st3 with events := st3.events ++ es, err := some e }
        | (es, Except.ok db3) =>
          let st4 := { st3 with
            db := db3
            events := st3.events ++ es
            wWithout := st3.wWithout ++ [times (4*i+2)]
            printed := st3.printed ++
              ["Finding value in " ++ toString nr ++ " rows without index"] }
          match find_value c (rand (2*i+1)) st4.db with
          | (es, Except.error e) => { st4 with events := st4.events ++ es, err := some e }
          | (es, Except.ok db4) =>
            { st4 with
              db := db4
              events := st4.events ++ es
              fWithout := st4.fWithout ++ [times (4*i+3)]
              printed := st4.printed ++ ["-----------"] }

/-- The experiment loop `for i in range(num_experiments)`, run from iteration
index `i` for `k` more iterations. -/
def runIters (c nr : Nat) (rand : Nat → Nat) (times : Nat → ℚ) :
    Nat → Nat → MState → MState
  | _, 0, st => st
  | i, k+1, st => runIters c nr rand times (i+1) k (stepIter c nr rand times i st)

/-- The lines `metrics` prints before the loop. -/
def initPrints (nr ne : Nat) : List String :=
  ["---------------------------------------",
   "Running " ++ toString ne ++ " experiments with " ++ toString nr,
   "-----------"]

/-- The reporting phase after the loop: print the four averages (the first
`statistics.mean` call raises on empty data, in which case nothing aggregate
is printed) and then the four raw series. -/
def reportPhase (st : MState) : MState :=
  let stA := { st with printed := st.printed ++ [""] }
  match mean stA.wWith with
  | Except.error e => { stA with err := some e }
  | Except.ok m1 =>
    let stB := { stA with
        printed := stA.printed ++ ["Average time to create rows with index " ++ toString m1],
        rWWith := some m1 }
    match mean stB.wWithout with
    | Except.error e => { stB with err := some e }
    | Except.ok m2 =>
      let stC := { stB with
          printed := stB.printed ++
            ["Average time to create rows without index " ++ toString m2],
          rWWithout := some m2 }
      match mean stC.fWith with
      | Except.error e => { stC with err := some e }
      | Except.ok m3 =>
        let stD := { stC with
            printed := stC.printed ++ ["Average time to find row with index " ++ toString m3],
            rFWith := some m3 }
        match mean stD.fWithout with
        | Except.error e => { stD with err := some e }
        | Except.ok m4 =>
          { stD with
              printed := stD.printed ++
                ["Average time to find row without index " ++ toString m4, "",
                 "Write time with index raw data: " ++ toString stD.wWith,
                 "Write time without index raw data: " ++ toString stD.wWithout,
                 "Find time with index raw data: " ++ toString stD.fWith,
                 "Find time without index raw data: " ++ toString stD.fWithout,
                 "---------------------------------------"],
              rFWithout := some m4 }

/-- `metrics(conn, num_rows, num_experiments)`, with the random draws and the
timing measurements supplied as oracle streams. -/
def metrics (c nr ne : Nat) (rand : Nat → Nat) (times : Nat → ℚ) (s : DBState) : MState :=
  let st0 : MState :=
    { db := s, events := [], printed := initPrints nr ne,
      wWith := [], wWithout := [], fWith := [], fWithout := [],
      rWWith := none, rWWithout := none, rFWith := none, rFWithout := none,
      err := none }
  let st := runIters c nr rand times 0 ne st0
  match st.err with
  | some _ => st
  | none => reportPhase st

/-- The `(num_rows, num_experiments)` pairs of the five `metrics` calls in the
script main block. -/
def mainCalls : List (Nat × Nat) :=
  [(1000, 25), (10000, 25), (100000, 15), (1000000, 15), (10000000, 5)]

/-- Shift an oracle stream: the later calls consume the later entries. -/
def shiftS {β : Type} (f : Nat → β) (k : Nat) : Nat → β := fun n => f (n + k)

/-- Run a list of `metrics` calls sequentially over one connection, stopping
at the first propagating exception (which would crash the script). -/
def runCalls (c : Nat) : List (Nat × Nat) → (Nat → Nat) → (Nat → ℚ) → DBState →
    List Event × DBState × Option Err
  | [], _, _, s => ([], s, none)
  | cfg :: rest, rand, times, s =>
    let r := metrics c cfg.1 cfg.2 rand times s
    match r.err with
    | some e => (r.events, r.db, some e)
    | none =>
      let r2 := runCalls c rest (shiftS rand (2*cfg.2)) (shiftS times (4*cfg.2)) r.db
      (r.events ++ r2.1, r2.2.1, r2.2.2)

/-- The script main block on the successful-connection path: open one
connection, run the five `metrics` calls over it, close it.  On a propagating
exception the script crashes before `conn.close()`. -/
def mainBlock (rand : Nat → Nat) (times : Nat → ℚ) (s : DBState) :
    List Event × DBState × Option Err :=
  match runCalls 0 mainCalls rand times s with
  | (es, s2, some e) => (Event.connect 0 :: es, s2, some e)
  | (es, s2, none) => (Event.connect 0 :: (es ++ [Event.close 0]), s2, none)

/-! ## Closed forms used by the lemmas about `metrics` -/

/-- No index named `test_table_value_idx` lives on a table other than
`test_table`.  Any real run of the script preserves this; it is what makes
`CREATE INDEX test_table_value_idx` succeed after `test_table` was recreated. -/
def cleanFor (s : DBState) : Prop :=
  ∀ p ∈ s.indexes, p.1 = "test_table_value_idx" → p.2.1 = "test_table"

instance (s : DBState) : Decidable (cleanFor s) := by
  unfold cleanFor
  infer_instance

/-- The index `create_index` creates for the default table. -/
def theIndex : String × String × String := ("test_table_value_idx", "test_table", "value")

/-- The state after one `create_rows(conn, nr, dbi)` call starting from `s`:
`test_table` freshly populated with `range(nr)`, indexed iff `dbi`. -/
def afterCreate (s : DBState) (nr : Nat) (dbi : Bool) : DBState :=
  { tables := ("test_table", insertAll freshTable (List.range nr)) :: filtT "test_table" s.tables
    indexes := (if dbi then [theIndex] else []) ++ filtI "test_table" s.indexes }

/-- The state at the end of a loop iteration (last `create_rows` ran with
`db_index=False`). -/
def normState (s : DBState) (nr : Nat) : DBState := afterCreate s nr false

/-- The database state after `k` iterations of the loop. -/
def iterDB (s : DBState) (nr : Nat) : Nat → DBState
  | 0 => s
  | _+1 => normState s nr

/-- The events one `create_rows(conn, nr, dbi)` call sends. -/
def crEvents (c nr : Nat) (dbi : Bool) : List Event :=
  [Event.sql c (Stmt.dropTableIfExists "test_table"),
   Event.sql c (Stmt.createTable "test_table")]
  ++ (if dbi then [Event.sql c (Stmt.createIndex "test_table_value_idx" "test_table" "value")]
      else [])
  ++ [Event.sql c (Stmt.insertValues "test_table" (List.range nr))]

/-- The events one loop iteration sends (`r1`, `r2` the two random draws). -/
def iterEvents (c nr r1 r2 : Nat) : List Event :=
  crEvents c nr true ++ [Event.sql c (Stmt.select "test_table" r1)]
  ++ crEvents c nr false ++ [Event.sql c (Stmt.select "test_table" r2)]

/-- The lines one loop iteration prints. -/
def iterPrints (nr i : Nat) : List String :=
  ["Running iteration " ++ toString i,
   "Creating " ++ toString nr ++ " rows with index",
   "Finding value in " ++ toString nr ++ " rows with index",
   "Creating " ++ toString nr ++ " rows without index",
   "Finding value in " ++ toString nr ++ " rows without index",
   "-----------"]

/-- The events of the whole loop, starting at iteration `i` for `k` iterations. -/
def loopEvents (c nr : Nat) (rand : Nat → Nat) : Nat → Nat → List Event
  | _, 0 => []
  | i, k+1 => iterEvents c nr (rand (2*i)) (rand (2*i+1)) ++ loopEvents c nr rand (i+1) k

/-- The lines the whole loop prints. -/
def loopPrints (nr : Nat) : Nat → Nat → List String
  | _, 0 => []
  | i, k+1 => iterPrints nr i ++ loopPrints nr (i+1) k

/-- One timing series of the whole loop: the timed calls of iteration `i` are
numbered `4*i + off` for `off` the position of the series in the iteration. -/
def loopTimes (times : Nat → ℚ) (off : Nat) : Nat → Nat → List ℚ
  | _, 0 => []
  | i, k+1 => times (4*i + off) :: loopTimes times off (i+1) k

/-! ## Lemmas about the association-list state -/

lemma alookup_filtT (tn : String) (ts : List (String × Table)) :
    alookup tn (filtT tn ts) = none := by
  induction ts with
  | nil => rfl
  | cons p ps ih =>
      by_cases h : p.1 = tn
      · simp [filtT, h, ih]
      · simp [filtT, alookup, h, ih]

lemma setTable_filtT (tn : String) (tb : Table) (ts : List (String × Table)) :
    setTable tn tb (filtT tn ts) = filtT tn ts := by
  induction ts with
  | nil => rfl
  | cons p ps ih =>
      by_cases h : p.1 = tn
      · simp [filtT, h, ih]
      · simp [filtT, setTable, h, ih]

lemma filtT_filtT (tn : String) (ts : List (String × Table)) :
    filtT tn (filtT tn ts) = filtT tn ts := by
  induction ts with
  | nil => rfl
  | cons p ps ih =>
      by_cases h : p.1 = tn
      · simp [filtT, h, ih]
      · simp [filtT, h, ih]

lemma filtI_filtI (tn : String) (ixs : List (String × String × String)) :
    filtI tn (filtI tn ixs) = filtI tn ixs := by
  induction ixs with
  | nil => rfl
  | cons p ps ih =>
      by_cases h : p.2.1 = tn
      · simp [filtI, h, ih]
      · simp [filtI, h, ih]

lemma mem_filtI {p : String × String × String} {tn : String}
    {ixs : List (String × String × String)} (hp : p ∈ filtI tn ixs) : p ∈ ixs := by
  induction ixs with
  | nil => simp [filtI] at hp
  | cons q qs ih =>
      by_cases h : q.2.1 = tn
      · simp only [filtI, if_pos h] at hp
        exact List.mem_cons_of_mem q (ih hp)
      · simp only [filtI, if_neg h, List.mem_cons] at hp
        rcases hp with hp | hp
        · exact hp ▸ List.mem_cons_self q qs
        · exact List.mem_cons_of_mem q (ih hp)

lemma alookup_filtI_clean {idxName tblName : String}
    (ixs : List (String × String × String))
    (h : ∀ p ∈ ixs, p.1 = idxName → p.2.1 = tblName) :
    alookup idxName (filtI tblName ixs) = none := by
  induction ixs with
  | nil => rfl
  | cons p ps ih =>
      have hps : ∀ q ∈ ps, q.1 = idxName → q.2.1 = tblName := by
        intro q hq
        exact h q (List.mem_cons_of_mem p hq)
      by_cases ht : p.2.1 = tblName
      · simp only [filtI, if_pos ht]
        exact ih hps
      · have hne : ¬ p.1 = idxName := fun he => ht (h p (List.mem_cons_self p ps) he)
        simp only [filtI, if_neg ht, alookup, if_neg hne]
        exact ih hps

/-! ## Lemmas computing the helper functions on reachable states -/

lemma create_table_ok (c : Nat) (tn : String) (s : DBState) :
    create_table c tn s =
      ([Event.sql c (Stmt.dropTableIfExists tn), Event.sql c (Stmt.createTable tn)],
       Except.ok { tables := (tn, freshTable) :: filtT tn s.tables
                   indexes := filtI tn s.indexes }) := by
  simp [create_table, seqRun, exec1, execStmt, alookup_filtT]

lemma cleanFor_afterCreate {s : DBState} (nr : Nat) (dbi : Bool) (h : cleanFor s) :
    cleanFor (afterCreate s nr dbi) := by
  intro p hp hname
  simp only [afterCreate] at hp
  rcases List.mem_append.mp hp with hp | hp
  · cases dbi with
    | true =>
        simp only [if_pos] at hp
        simp only [List.mem_singleton] at hp
        subst hp
        rfl
    | false => simp at hp
  · exact h p (mem_filtI hp) hname

lemma create_rows_ok (c nr bs : Nat) (dbi : Bool) (s : DBState) (h : cleanFor s) :
    create_rows c nr dbi bs s = (crEvents c nr dbi, Except.ok (afterCreate s nr dbi)) := by
  have hidx : alookup "test_table_value_idx" (filtI "test_table" s.indexes) = none :=
    alookup_filtI_clean s.indexes h
  cases dbi with
  | true =>
      simp [create_rows, create_table, seqRun, exec1, execStmt, alookup_filtT,
            insert_multiple_rows, create_index, pyOr, hidx, alookup, setTable,
            setTable_filtT, afterCreate, crEvents, theIndex]
  | false =>
      simp [create_rows, create_table, seqRun, exec1, execStmt, alookup_filtT,
            insert_multiple_rows, idRun, alookup, setTable, setTable_filtT,
            afterCreate, crEvents]

lemma find_value_ok (c v nr : Nat) (s : DBState) (dbi : Bool) :
    find_value c v (afterCreate s nr dbi) =
      ([Event.sql c (Stmt.select "test_table" v)], Except.ok (afterCreate s nr dbi)) := by
  simp [find_value, find_rows, exec1, execStmt, afterCreate, alookup]

lemma afterCreate_afterCreate (s : DBState) (nr1 nr2 : Nat) (d1 d2 : Bool) :
    afterCreate (afterCreate s nr1 d1) nr2 d2 = afterCreate s nr2 d2 := by
  cases d1 with
  | true =>
      simp [afterCreate, filtT, filtT_filtT, filtI, filtI_filtI, theIndex]
  | false =>
      simp [afterCreate, filtT, filtT_filtT, filtI, filtI_filtI]

/-! ## Claim theorems: connection helper and decorators -/

/-- Claim C2: `create_connection` catches exactly the `OperationalError` of the
connect call, on which it prints the error message and returns `None`; on
success it returns the live connection; any other exception propagates
unhandled. -/
theorem claim_C2 (dn du dp dh : Option String) (dpo : Option PyStrInt)
    (env : String → Option String) (connect : ConnParams → ConnectOutcome) :
    (∀ c, connect (resolveParams dn du dp dh dpo env) = ConnectOutcome.success c →
        create_connection dn du dp dh dpo env connect =
          (["Connection to PostgreSQL DB successful"], Except.ok (some c))) ∧
    (∀ e, connect (resolveParams dn du dp dh dpo env) = ConnectOutcome.opError e →
        create_connection dn du dp dh dpo env connect =
          (["The error " ++ sq ++ e ++ sq ++ " occurred"], Except.ok none)) ∧
    (∀ e, connect (resolveParams dn du dp dh dpo env) = ConnectOutcome.otherError e →
        create_connection dn du dp dh dpo env connect = ([], Except.error e)) := by
  refine ⟨?_, ?_, ?_⟩ <;> intro x hx <;> simp [create_connection, hx]

/-- Witness for C2 at a concrete failing connect call. -/
theorem claim_C2_witness :
    create_connection none none none none none (fun _ => none)
        (fun _ => ConnectOutcome.opError "boom") =
      (["The error " ++ sq ++ "boom" ++ sq ++ " occurred"], Except.ok none) :=
  (claim_C2 none none none none none (fun _ => none)
      (fun _ => ConnectOutcome.opError "boom")).2.1 "boom" rfl

/-- Claim C6: the wrapper built by `get_execution_time` performs exactly one
invocation of the wrapped callable (its whole effect on the world is one
application, and an instrumented call counter goes up by exactly one), returns
the elapsed wall-clock time multiplied by 1000, and discards the value the
callable returned (wrappers of callables with the same effect but different
return values are equal). -/
theorem claim_C6 {α σ ρ ρ2 : Type} (method : α → TWorld σ → TWorld σ × ρ)
    (a : α) (w : TWorld σ) :
    (get_execution_time method a w).1 = (method a w).1 ∧
    (get_execution_time method a w).2 = ((method a w).1.time - w.time) * 1000 ∧
    (∀ m2 : α → TWorld σ → TWorld σ × ρ2, (∀ b u, (m2 b u).1 = (method b u).1) →
        get_execution_time m2 a w = get_execution_time method a w) ∧
    ((method a w).1.calls = w.calls + 1 →
        (get_execution_time method a w).1.calls = w.calls + 1) := by
  refine ⟨rfl, rfl, ?_, ?_⟩
  · intro m2 hm
    simp [get_execution_time, hm]
  · intro hc
    simpa [get_execution_time] using hc

/-- Witness for C6 on a concrete world and callable. -/
theorem claim_C6_witness :
    get_execution_time (fun (_ : Unit) (w : TWorld Unit) =>
        ({ time := w.time + 5, world := (), calls := w.calls + 1 }, "ret")) ()
        { time := 0, world := (), calls := 0 } =
      get_execution_time (fun (_ : Unit) (w : TWorld Unit) =>
        ({ time := w.time + 5, world := (), calls := w.calls + 1 }, (42 : Nat))) ()
        { time := 0, world := (), calls := 0 } ∧
    (get_execution_time (fun (_ : Unit) (w : TWorld Unit) =>
        ({ time := w.time + 5, world := (), calls := w.calls + 1 }, (42 : Nat))) ()
        { time := 0, world := (), calls := 0 }).1.calls = 0 + 1 := by
  have h := @claim_C6 Unit Unit Nat String
    (fun (_ : Unit) (w : TWorld Unit) =>
      ({ time := w.time + 5, world := (), calls := w.calls + 1 }, (42 : Nat))) ()
    { time := 0, world := (), calls := 0 }
  exact ⟨h.2.2.1 _ (fun b u => rfl), h.2.2.2 rfl⟩

/-- Claim C7: each connection parameter resolves to the fixed default when the
argument is absent or falsy and the environment variable is unset; a set
environment variable overrides the default (when the argument is falsy); and a
truthy explicit argument takes precedence over the environment. -/
theorem claim_C7 (dn du dp dh : Option String) (dpo : Option PyStrInt)
    (env : String → Option String) :
    ((dn = none ∨ dn = some "") → env "DB_NAME" = none →
        (resolveParams dn du dp dh dpo env).database = "postgres") ∧
    ((du = none ∨ du = some "") → env "DB_USER" = none →
        (resolveParams dn du dp dh dpo env).user = "postgres") ∧
    ((dp = none ∨ dp = some "") → env "DB_PASSWORD" = none →
        (resolveParams dn du dp dh dpo env).password = "postgres") ∧
    ((dh = none ∨ dh = some "") → env "DB_HOST" = none →
        (resolveParams dn du dp dh dpo env).host = "localhost") ∧
    ((dpo = none ∨ (∃ v, dpo = some v ∧ pyTruthy v = false)) → env "DB_PORT" = none →
        (resolveParams dn du dp dh dpo env).port = PyStrInt.int 5432) ∧
    (∀ v, (dn = none ∨ dn = some "") → env "DB_NAME" = some v →
        (resolveParams dn du dp dh dpo env).database = v) ∧
    (∀ v, (du = none ∨ du = some "") → env "DB_USER" = some v →
        (resolveParams dn du dp dh dpo env).user = v) ∧
    (∀ v, (dp = none ∨ dp = some "") → env "DB_PASSWORD" = some v →
        (resolveParams dn du dp dh dpo env).password = v) ∧
    (∀ v, (dh = none ∨ dh = some "") → env "DB_HOST" = some v →
        (resolveParams dn du dp dh dpo env).host = v) ∧
    (∀ v, (dpo = none ∨ (∃ u, dpo = some u ∧ pyTruthy u = false)) → env "DB_PORT" = some v →
        (resolveParams dn du dp dh dpo env).port = PyStrInt.str v) ∧
    (∀ a, dn = some a → a ≠ "" → (resolveParams dn du dp dh dpo env).database = a) ∧
    (∀ a, du = some a → a ≠ "" → (resolveParams dn du dp dh dpo env).user = a) ∧
    (∀ a, dp = some a → a ≠ "" → (resolveParams dn du dp dh dpo env).password = a) ∧
    (∀ a, dh = some a → a ≠ "" → (resolveParams dn du dp dh dpo env).host = a) ∧
    (∀ u, dpo = some u → pyTruthy u = true → (resolveParams dn du dp dh dpo env).port = u) := by
  refine ⟨?_, ?_, ?_, ?_, ?_, ?_, ?_, ?_, ?_, ?_, ?_, ?_, ?_, ?_, ?_⟩
  · rintro (rfl | rfl) he <;> simp [resolveParams, pyOr, getenv, he]
  · rintro (rfl | rfl) he <;> simp [resolveParams, pyOr, getenv, he]
  · rintro (rfl | rfl) he <;> simp [resolveParams, pyOr, getenv, he]
  · rintro (rfl | rfl) he <;> simp [resolveParams, pyOr, getenv, he]
  · rintro h he
    rcases h with rfl | ⟨v, rfl, hv⟩
    · simp [resolveParams, pyOrSI, he]
    · simp [resolveParams, pyOrSI, he, hv]
  · rintro v (rfl | rfl) he <;> simp [resolveParams, pyOr, getenv, he]
  · rintro v (rfl | rfl) he <;> simp [resolveParams, pyOr, getenv, he]
  · rintro v (rfl | rfl) he <;> simp [resolveParams, pyOr, getenv, he]
  · rintro v (rfl | rfl) he <;> simp [resolveParams, pyOr, getenv, he]
  · rintro v h he
    rcases h with rfl | ⟨u, rfl, hu⟩
    · simp [resolveParams, pyOrSI, he]
    · simp [resolveParams, pyOrSI, he, hu]
  · rintro a rfl ha; simp [resolveParams, pyOr, ha]
  · rintro a rfl ha; simp [resolveParams, pyOr, ha]
  · rintro a rfl ha; simp [resolveParams, pyOr, ha]
  · rintro a rfl ha; simp [resolveParams, pyOr, ha]
  · rintro u rfl hu; simp [resolveParams, pyOrSI, hu]

/-- Witness for C7: all defaults with an empty environment; an environment
override for the user; an explicit argument beating a set environment
variable for the database name. -/
theorem claim_C7_witness :
    (resolveParams none none none none none (fun _ => none)).database = "postgres" ∧
    (resolveParams none none none none none (fun _ => none)).host = "localhost" ∧
    (resolveParams none none none none none (fun _ => none)).port = PyStrInt.int 5432 ∧
    (resolveParams none none none none none
        (fun n => if n = "DB_USER" then some "alice" else none)).user = "alice" ∧
    (resolveParams (some "mydb") none none none none
        (fun n => if n = "DB_NAME" then some "envdb" else none)).database = "mydb" := by
  refine ⟨?_, ?_, ?_, ?_, ?_⟩
  · exact (claim_C7 none none none none none (fun _ => none)).1 (Or.inl rfl) rfl
  · exact (claim_C7 none none none none none (fun _ => none)).2.2.2.1 (Or.inl rfl) rfl
  · exact (claim_C7 none none none none none (fun _ => none)).2.2.2.2.1 (Or.inl rfl) rfl
  · exact (claim_C7 none none none none none
      (fun n => if n = "DB_USER" then some "alice" else none)).2.2.2.2.2.2.1
      "alice" (Or.inl rfl) (by decide)
  · exact (claim_C7 (some "mydb") none none none none
      (fun n => if n = "DB_NAME" then some "envdb" else none)).2.2.2.2.2.2.2.2.2.2.1
      "mydb" rfl (by decide)

/-! ## Claim theorems: table DDL and insertion -/

/-- Claim C5: for every table name, `create_table` first drops any existing
table of that name and then creates a table whose columns are exactly the
serial primary key `id` and the integer column `value`; it succeeds from every
state (in particular when the table already exists) and leaves that table
freshly created and empty. -/
theorem claim_C5 (c : Nat) (tn : String) (s : DBState) :
    ∃ s' : DBState,
      create_table c tn s =
        ([Event.sql c (Stmt.dropTableIfExists tn), Event.sql c (Stmt.createTable tn)],
         Except.ok s') ∧
      alookup tn s'.tables = some freshTable ∧
      freshTable.schema = [("id", "serial PRIMARY KEY"), ("value", "INTEGER")] ∧
      freshTable.rows = [] := by
  refine ⟨{ tables := (tn, freshTable) :: filtT tn s.tables, indexes := filtI tn s.indexes },
    create_table_ok c tn s, ?_, rfl, rfl⟩
  simp [alookup]

/-- Claim C9: `insert_multiple_rows` with its default `values=None` raises a
`TypeError` (iterating `None` in the list comprehension) before any SQL
statement is sent: the event list is empty, so the database is untouched. -/
theorem claim_C9 (c : Nat) (tn : String) (bs : Nat) (s : DBState) :
    insert_multiple_rows c tn none bs s = ([], Except.error Err.typeError) := rfl

/-! ## Claim C1: the off-by-one between the populated range and the random draw -/

/-- Claim C1 evaluated at the failing input `num_rows = 1`: `create_rows`
populates the table with `list(range(1)) = [0]` (the insert event and the
resulting rows both show only the value 0), while `random.randint(1, 1)` can
only draw 1 — a value that was never inserted.  This contradicts the claim
(and the `create_rows` docstring, which says the values run from 1 to
`num_rows`). -/
theorem claim_C1_code_eval :
    (1 ∈ randintOutcomes 1 1) ∧
    create_rows 0 1 true 1000 { tables := [], indexes := [] } =
      ([Event.sql 0 (Stmt.dropTableIfExists "test_table"),
        Event.sql 0 (Stmt.createTable "test_table"),
        Event.sql 0 (Stmt.createIndex "test_table_value_idx" "test_table" "value"),
        Event.sql 0 (Stmt.insertValues "test_table" [0])],
       Except.ok { tables := [("test_table",
                     { schema := [("id", "serial PRIMARY KEY"), ("value", "INTEGER")]
                       rows := [(1, 0)]
                       nextId := 2 })]
                   indexes := [("test_table_value_idx", "test_table", "value")] }) ∧
    (1 ∉ [0]) ∧
    (∀ v ∈ randintOutcomes 1 1, v ∉ List.range 1) :=
  ⟨by decide, by rfl, by decide, by decide⟩

/-! ## Lemmas about the experiment loop of `metrics` -/

lemma stepIter_ok (c nr : Nat) (rand : Nat → Nat) (times : Nat → ℚ) (i : Nat)
    (st : MState) (h : cleanFor st.db) (he : st.err = none) :
    stepIter c nr rand times i st =
      { st with
        db := normState st.db nr
        events := st.events ++ iterEvents c nr (rand (2*i)) (rand (2*i+1))
        printed := st.printed ++ iterPrints nr i
        wWith := st.wWith ++ [times (4*i)]
        fWith := st.fWith ++ [times (4*i+1)]
        wWithout := st.wWithout ++ [times (4*i+2)]
        fWithout := st.fWithout ++ [times (4*i+3)] } := by
  have h1 := create_rows_ok c nr 1000 true st.db h
  have h2 := find_value_ok c (rand (2*i)) nr st.db true
  have h3 := create_rows_ok c nr 1000 false (afterCreate st.db nr true)
    (cleanFor_afterCreate nr true h)
  rw [afterCreate_afterCreate] at h3
  have h4 := find_value_ok c (rand (2*i+1)) nr st.db false
  simp [stepIter, he, h1, h2, h3, h4, iterEvents, iterPrints, normState,
        List.append_assoc]

lemma iterDB_normState (s : DBState) (nr : Nat) : ∀ k, iterDB (normState s nr) nr k = normState s nr
  | 0 => rfl
  | k+1 => by simp [iterDB, normState, afterCreate_afterCreate]

lemma runIters_eq (c nr : Nat) (rand : Nat → Nat) (times : Nat → ℚ) :
    ∀ (k i : Nat) (st : MState), cleanFor st.db → st.err = none →
    runIters c nr rand times i k st =
      { db := iterDB st.db nr k
        events := st.events ++ loopEvents c nr rand i k
        printed := st.printed ++ loopPrints nr i k
        wWith := st.wWith ++ loopTimes times 0 i k
        fWith := st.fWith ++ loopTimes times 1 i k
        wWithout := st.wWithout ++ loopTimes times 2 i k
        fWithout := st.fWithout ++ loopTimes times 3 i k
        rWWith := st.rWWith
        rWWithout := st.rWWithout
        rFWith := st.rFWith
        rFWithout := st.rFWithout
        err := none } := by
  intro k
  induction k with
  | zero =>
      intro i st h he
      simp only [runIters, iterDB, loopEvents, loopPrints, loopTimes, List.append_nil]
      rw [← he]
  | succ k ih =>
      intro i st h he
      rw [runIters, stepIter_ok c nr rand times i st h he,
          ih (i+1)
            { db := normState st.db nr
              events := st.events ++ iterEvents c nr (rand (2*i)) (rand (2*i+1))
              printed := st.printed ++ iterPrints nr i
              wWith := st.wWith ++ [times (4*i)]
              wWithout := st.wWithout ++ [times (4*i+2)]
              fWith := st.fWith ++ [times (4*i+1)]
              fWithout := st.fWithout ++ [times (4*i+3)]
              rWWith := st.rWWith
              rWWithout := st.rWWithout
              rFWith := st.rFWith
              rFWithout := st.rFWithout
              err := st.err }
            (cleanFor_afterCreate nr false h) he]
      simp [iterDB, iterDB_normState, loopEvents, loopPrints, loopTimes,
            List.append_assoc]
      cases k <;> simp [normState, afterCreate_afterCreate]

lemma mean_ok {xs : List ℚ} (h : xs ≠ []) : mean xs = Except.ok (meanV xs) := by
  cases xs with
  | nil => exact absurd rfl h
  | cons a l => rfl

lemma reportPhase_eq (st : MState) (h1 : st.wWith ≠ []) (h2 : st.wWithout ≠ [])
    (h3 : st.fWith ≠ []) (h4 : st.fWithout ≠ []) :
    reportPhase st =
      { st with
        printed := st.printed ++
          ["", "Average time to create rows with index " ++ toString (meanV st.wWith),
           "Average time to create rows without index " ++ toString (meanV st.wWithout),
           "Average time to find row with index " ++ toString (meanV st.fWith),
           "Average time to find row without index " ++ toString (meanV st.fWithout), "",
           "Write time with index raw data: " ++ toString st.wWith,
           "Write time without index raw data: " ++ toString st.wWithout,
           "Find time with index raw data: " ++ toString st.fWith,
           "Find time without index raw data: " ++ toString st.fWithout,
           "---------------------------------------"]
        rWWith := some (meanV st.wWith)
        rWWithout := some (meanV st.wWithout)
        rFWith := some (meanV st.fWith)
        rFWithout := some (meanV st.fWithout) } := by
  simp only [reportPhase, mean_ok h1, mean_ok h2, mean_ok h3, mean_ok h4]
  simp [List.append_assoc]

lemma loopTimes_length (times : Nat → ℚ) (off : Nat) :
    ∀ (k i : Nat), (loopTimes times off i k).length = k := by
  intro k
  induction k with
  | zero => intro i; rfl
  | succ k ih => intro i; simp [loopTimes, ih]

lemma loopTimes_ne_nil (times : Nat → ℚ) (off k i : Nat) (hk : 1 ≤ k) :
    loopTimes times off i k ≠ [] := by
  intro hnil
  have := loopTimes_length times off k i
  rw [hnil] at this
  simp at this
  omega

lemma metrics_eq (c nr k : Nat) (rand : Nat → Nat) (times : Nat → ℚ) (s : DBState)
    (h : cleanFor s) :
    metrics c nr (k+1) rand times s = reportPhase
      { db := normState s nr
        events := loopEvents c nr rand 0 (k+1)
        printed := initPrints nr (k+1) ++ loopPrints nr 0 (k+1)
        wWith := loopTimes times 0 0 (k+1)
        fWith := loopTimes times 1 0 (k+1)
        wWithout := loopTimes times 2 0 (k+1)
        fWithout := loopTimes times 3 0 (k+1)
        rWWith := none
        rWWithout := none
        rFWith := none
        rFWithout := none
        err := none } := by
  have hrun := runIters_eq c nr rand times (k+1) 0
    { db := s, events := [], printed := initPrints nr (k+1), wWith := [], wWithout := []
      fWith := [], fWithout := [], rWWith := none, rWWithout := none, rFWith := none
      rFWithout := none, err := none } h rfl
  simp only [metrics]
  rw [hrun]
  simp [iterDB]

/-! ## Claim theorems about `metrics` -/

/-- Claim C10: `metrics` with `num_experiments = 0` runs no iteration and then
fails inside the first aggregate `print` when `statistics.mean` is applied to
the empty sample list: the error propagates, the only printed lines are the
three header lines and the blank line, no `Average ...` line is ever printed
and no aggregate is ever computed. -/
theorem claim_C10 (c nr : Nat) (rand : Nat → Nat) (times : Nat → ℚ) (s : DBState) :
    (metrics c nr 0 rand times s).err = some Err.statisticsError ∧
    (metrics c nr 0 rand times s).printed =
      ["---------------------------------------",
       "Running 0 experiments with " ++ toString nr,
       "-----------", ""] ∧
    (metrics c nr 0 rand times s).rWWith = none ∧
    (metrics c nr 0 rand times s).rWWithout = none ∧
    (metrics c nr 0 rand times s).rFWith = none ∧
    (metrics c nr 0 rand times s).rFWithout = none ∧
    (metrics c nr 0 rand times s).wWith = [] :=
  ⟨rfl, rfl, rfl, rfl, rfl, rfl, rfl⟩

/-- Claim C4: for every `num_rows` and every `num_experiments ≥ 1`, each of
the four series collects exactly `num_experiments` timing samples and the
aggregate `metrics` reports for a series is the arithmetic mean
(sum divided by length) of the samples of that series. -/
theorem claim_C4 (c nr ne : Nat) (rand : Nat → Nat) (times : Nat → ℚ) (s : DBState)
    (h : cleanFor s) (hne : 1 ≤ ne) :
    (metrics c nr ne rand times s).err = none ∧
    (metrics c nr ne rand times s).wWith.length = ne ∧
    (metrics c nr ne rand times s).wWithout.length = ne ∧
    (metrics c nr ne rand times s).fWith.length = ne ∧
    (metrics c nr ne rand times s).fWithout.length = ne ∧
    (metrics c nr ne rand times s).rWWith =
      some ((metrics c nr ne rand times s).wWith.sum /
            ((metrics c nr ne rand times s).wWith.length : ℚ)) ∧
    (metrics c nr ne rand times s).rWWithout =
      some ((metrics c nr ne rand times s).wWithout.sum /
            ((metrics c nr ne rand times s).wWithout.length : ℚ)) ∧
    (metrics c nr ne rand times s).rFWith =
      some ((metrics c nr ne rand times s).fWith.sum /
            ((metrics c nr ne rand times s).fWith.length : ℚ)) ∧
    (metrics c nr ne rand times s).rFWithout =
      some ((metrics c nr ne rand times s).fWithout.sum /
            ((metrics c nr ne rand times s).fWithout.length : ℚ)) := by
  obtain ⟨k, rfl⟩ : ∃ k, ne = k + 1 := ⟨ne - 1, by omega⟩
  rw [metrics_eq c nr k rand times s h,
      reportPhase_eq _ (loopTimes_ne_nil times 0 (k+1) 0 (by omega))
        (loopTimes_ne_nil times 2 (k+1) 0 (by omega))
        (loopTimes_ne_nil times 1 (k+1) 0 (by omega))
        (loopTimes_ne_nil times 3 (k+1) 0 (by omega))]
  refine ⟨rfl, ?_, ?_, ?_, ?_, rfl, rfl, rfl, rfl⟩ <;>
    simp [loopTimes_length]

/-- Witness for C4 at `num_rows = 2`, `num_experiments = 1`, from the empty
database. -/
theorem claim_C4_witness :
    (metrics 0 2 1 (fun _ => 1) (fun _ => 0) { tables := [], indexes := [] }).err = none ∧
    (metrics 0 2 1 (fun _ => 1) (fun _ => 0) { tables := [], indexes := [] }).wWith.length = 1 ∧
    (metrics 0 2 1 (fun _ => 1) (fun _ => 0) { tables := [], indexes := [] }).wWithout.length = 1 ∧
    (metrics 0 2 1 (fun _ => 1) (fun _ => 0) { tables := [], indexes := [] }).fWith.length = 1 ∧
    (metrics 0 2 1 (fun _ => 1) (fun _ => 0) { tables := [], indexes := [] }).fWithout.length = 1 ∧
    (metrics 0 2 1 (fun _ => 1) (fun _ => 0) { tables := [], indexes := [] }).rWWith =
      some ((metrics 0 2 1 (fun _ => 1) (fun _ => 0) { tables := [], indexes := [] }).wWith.sum /
        (((metrics 0 2 1 (fun _ => 1) (fun _ => 0) { tables := [], indexes := [] }).wWith.length : ℚ))) ∧
    (metrics 0 2 1 (fun _ => 1) (fun _ => 0) { tables := [], indexes := [] }).rWWithout =
      some ((metrics 0 2 1 (fun _ => 1) (fun _ => 0) { tables := [], indexes := [] }).wWithout.sum /
        (((metrics 0 2 1 (fun _ => 1) (fun _ => 0) { tables := [], indexes := [] }).wWithout.length : ℚ))) ∧
    (metrics 0 2 1 (fun _ => 1) (fun _ => 0) { tables := [], indexes := [] }).rFWith =
      some ((metrics 0 2 1 (fun _ => 1) (fun _ => 0) { tables := [], indexes := [] }).fWith.sum /
        (((metrics 0 2 1 (fun _ => 1) (fun _ => 0) { tables := [], indexes := [] }).fWith.length : ℚ))) ∧
    (metrics 0 2 1 (fun _ => 1) (fun _ => 0) { tables := [], indexes := [] }).rFWithout =
      some ((metrics 0 2 1 (fun _ => 1) (fun _ => 0) { tables := [], indexes := [] }).fWithout.sum /
        (((metrics 0 2 1 (fun _ => 1) (fun _ => 0) { tables := [], indexes := [] }).fWithout.length : ℚ))) :=
  claim_C4 0 2 1 (fun _ => 1) (fun _ => 0) { tables := [], indexes := [] }
    (by decide) (by decide)

/-- Claim C3 is false as stated: after `metrics` returns, the benchmark table
still exists (with `num_rows = 2`, one experiment, starting from the empty
database, `test_table` is present in the final state), because no
`drop_table` call ends an iteration. -/
theorem claim_C3_counterexample :
    (alookup "test_table"
      ((metrics 0 2 1 (fun _ => 1) (fun _ => 0) { tables := [], indexes := [] }).db).tables).isSome
      = true := by
  decide

/-- Claim C3 amended: within each iteration every `create_rows` call drops and
recreates the table (see `create_table_ok`), but no drop is issued at the end
of an iteration — `drop_table` is never called — so after the final iteration
of any `metrics` call the table still exists, populated with `range(num_rows)`
and carrying no index. -/
theorem claim_C3_amended (c nr ne : Nat) (rand : Nat → Nat) (times : Nat → ℚ)
    (s : DBState) (h : cleanFor s) (hne : 1 ≤ ne) :
    alookup "test_table" ((metrics c nr ne rand times s).db).tables =
      some (insertAll freshTable (List.range nr)) ∧
    alookup "test_table_value_idx" ((metrics c nr ne rand times s).db).indexes = none := by
  obtain ⟨k, rfl⟩ : ∃ k, ne = k + 1 := ⟨ne - 1, by omega⟩
  rw [metrics_eq c nr k rand times s h,
      reportPhase_eq _ (loopTimes_ne_nil times 0 (k+1) 0 (by omega))
        (loopTimes_ne_nil times 2 (k+1) 0 (by omega))
        (loopTimes_ne_nil times 1 (k+1) 0 (by omega))
        (loopTimes_ne_nil times 3 (k+1) 0 (by omega))]
  constructor
  · simp [normState, afterCreate, alookup]
  · exact alookup_filtI_clean s.indexes h

/-- Witness for the amended C3 at a concrete run. -/
theorem claim_C3_amended_witness :
    alookup "test_table"
      ((metrics 0 2 1 (fun _ => 1) (fun _ => 0) { tables := [], indexes := [] }).db).tables =
      some (insertAll freshTable (List.range 2)) ∧
    alookup "test_table_value_idx"
      ((metrics 0 2 1 (fun _ => 1) (fun _ => 0) { tables := [], indexes := [] }).db).indexes
      = none :=
  claim_C3_amended 0 2 1 (fun _ => 1) (fun _ => 0) { tables := [], indexes := [] }
    (by decide) (by decide)

/-! ## Lemmas about the event traces, and claim C8 -/

lemma crEvents_sql (c nr : Nat) (dbi : Bool) :
    ∀ e ∈ crEvents c nr dbi, ∃ st, e = Event.sql c st := by
  intro e he
  cases dbi with
  | true =>
      simp [crEvents] at he
      rcases he with rfl | rfl | rfl | rfl <;> exact ⟨_, rfl⟩
  | false =>
      simp [crEvents] at he
      rcases he with rfl | rfl | rfl <;> exact ⟨_, rfl⟩

lemma iterEvents_sql (c nr r1 r2 : Nat) :
    ∀ e ∈ iterEvents c nr r1 r2, ∃ st, e = Event.sql c st := by
  intro e he
  simp only [iterEvents, List.mem_append] at he
  rcases he with ((he | he) | he) | he
  · exact crEvents_sql c nr true e he
  · rw [List.mem_singleton] at he
    exact ⟨_, he⟩
  · exact crEvents_sql c nr false e he
  · rw [List.mem_singleton] at he
    exact ⟨_, he⟩

lemma loopEvents_sql (c nr : Nat) (rand : Nat → Nat) :
    ∀ (k i : Nat), ∀ e ∈ loopEvents c nr rand i k, ∃ st, e = Event.sql c st := by
  intro k
  induction k with
  | zero => intro i e he; simp [loopEvents] at he
  | succ k ih =>
      intro i e he
      simp only [loopEvents, List.mem_append] at he
      rcases he with he | he
      · exact iterEvents_sql c nr _ _ e he
      · exact ih (i+1) e he

lemma metrics_run (c nr k : Nat) (rand : Nat → Nat) (times : Nat → ℚ) (s : DBState)
    (h : cleanFor s) :
    (metrics c nr (k+1) rand times s).err = none ∧
    (metrics c nr (k+1) rand times s).db = normState s nr ∧
    (metrics c nr (k+1) rand times s).events = loopEvents c nr rand 0 (k+1) := by
  rw [metrics_eq c nr k rand times s h,
      reportPhase_eq _ (loopTimes_ne_nil times 0 (k+1) 0 (by omega))
        (loopTimes_ne_nil times 2 (k+1) 0 (by omega))
        (loopTimes_ne_nil times 1 (k+1) 0 (by omega))
        (loopTimes_ne_nil times 3 (k+1) 0 (by omega))]
  exact ⟨rfl, rfl, rfl⟩

lemma runCalls_ok (c : Nat) :
    ∀ (cfgs : List (Nat × Nat)), (∀ p ∈ cfgs, 1 ≤ p.2) →
    ∀ (rand : Nat → Nat) (times : Nat → ℚ) (s : DBState), cleanFor s →
    (runCalls c cfgs rand times s).2.2 = none ∧
    (∀ e ∈ (runCalls c cfgs rand times s).1, ∃ st, e = Event.sql c st) := by
  intro cfgs
  induction cfgs with
  | nil =>
      intro _ rand times s _
      exact ⟨rfl, by intro e he; simp [runCalls] at he⟩
  | cons cfg rest ih =>
      intro hcf rand times s hs
      have h2 : 1 ≤ cfg.2 := hcf cfg (List.mem_cons_self _ _)
      obtain ⟨k, hk⟩ : ∃ k, cfg.2 = k + 1 := ⟨cfg.2 - 1, by omega⟩
      have hm := metrics_run c cfg.1 k rand times s hs
      rw [← hk] at hm
      have hcl2 : cleanFor (metrics c cfg.1 cfg.2 rand times s).db := by
        rw [hm.2.1]
        exact cleanFor_afterCreate cfg.1 false hs
      have ihr := ih (fun p hp => hcf p (List.mem_cons_of_mem _ hp))
        (shiftS rand (2*cfg.2)) (shiftS times (4*cfg.2))
        (metrics c cfg.1 cfg.2 rand times s).db hcl2
      have key : runCalls c (cfg :: rest) rand times s =
          ((metrics c cfg.1 cfg.2 rand times s).events ++
             (runCalls c rest (shiftS rand (2*cfg.2)) (shiftS times (4*cfg.2))
               (metrics c cfg.1 cfg.2 rand times s).db).1,
           (runCalls c rest (shiftS rand (2*cfg.2)) (shiftS times (4*cfg.2))
               (metrics c cfg.1 cfg.2 rand times s).db).2.1,
           (runCalls c rest (shiftS rand (2*cfg.2)) (shiftS times (4*cfg.2))
               (metrics c cfg.1 cfg.2 rand times s).db).2.2) := by
        simp only [runCalls]
        rw [hm.1]
      rw [key]
      refine ⟨ihr.1, ?_⟩
      intro e he
      rcases List.mem_append.mp he with he | he
      · rw [hm.2.2] at he
        exact loopEvents_sql c cfg.1 rand cfg.2 0 e he
      · exact ihr.2 e he

/-- Claim C8: across a run of the script main block, exactly one connection is
ever opened (the trace starts with the single `connect` event), every SQL
operation of every `metrics` call runs over that same connection handle, and
the connection is closed exactly once, as the last event, after the last
`metrics` call; no exception interrupts the run. -/
theorem claim_C8 (rand : Nat → Nat) (times : Nat → ℚ) (s : DBState) (h : cleanFor s) :
    (mainBlock rand times s).2.2 = none ∧
    ((mainBlock rand times s).1.countP isConnect) = 1 ∧
    ((mainBlock rand times s).1.countP isClose) = 1 ∧
    (mainBlock rand times s).1.head? = some (Event.connect 0) ∧
    (mainBlock rand times s).1.getLast? = some (Event.close 0) ∧
    (∀ e ∈ (mainBlock rand times s).1, connOf e = 0) := by
  have hrc := runCalls_ok 0 mainCalls (by decide) rand times s h
  rcases hr : runCalls 0 mainCalls rand times s with ⟨es, s2, err⟩
  have h1 : err = none := by
    have := hrc.1
    rw [hr] at this
    exact this
  subst h1
  have hsql : ∀ e ∈ es, ∃ st, e = Event.sql 0 st := by
    intro e he
    have := hrc.2
    rw [hr] at this
    exact this e he
  have key : mainBlock rand times s = (Event.connect 0 :: (es ++ [Event.close 0]), s2, none) := by
    unfold mainBlock
    rw [hr]
  rw [key]
  have h0c : es.countP isConnect = 0 := by
    rw [List.countP_eq_zero]
    intro a ha
    obtain ⟨st', rfl⟩ := hsql a ha
    simp [isConnect]
  have h0k : es.countP isClose = 0 := by
    rw [List.countP_eq_zero]
    intro a ha
    obtain ⟨st', rfl⟩ := hsql a ha
    simp [isClose]
  refine ⟨rfl, ?_, ?_, rfl, ?_, ?_⟩
  · simp [List.countP_cons, List.countP_append, h0c, isConnect]
  · simp [List.countP_cons, List.countP_append, h0k, isClose]
  · rw [show Event.connect 0 :: (es ++ [Event.close 0])
        = (Event.connect 0 :: es) ++ [Event.close 0] from by simp]
    exact List.getLast?_concat _
  · intro e he
    rcases List.mem_cons.mp he with rfl | he
    · rfl
    rcases List.mem_append.mp he with he | he
    · obtain ⟨st', rfl⟩ := hsql e he
      rfl
    · rw [List.mem_singleton] at he
      rw [he]
      rfl

/-- Witness for C8 on a concrete run from the empty database. -/
theorem claim_C8_witness :
    (mainBlock (fun _ => 1) (fun _ => 0) { tables := [], indexes := [] }).2.2 = none ∧
    ((mainBlock (fun _ => 1) (fun _ => 0) { tables := [], indexes := [] }).1.countP isConnect) = 1 ∧
    ((mainBlock (fun _ => 1) (fun _ => 0) { tables := [], indexes := [] }).1.countP isClose) = 1 ∧
    (mainBlock (fun _ => 1) (fun _ => 0) { tables := [], indexes := [] }).1.head?
      = some (Event.connect 0) ∧
    (mainBlock (fun _ => 1) (fun _ => 0) { tables := [], indexes := [] }).1.getLast?
      = some (Event.close 0) ∧
    (∀ e ∈ (mainBlock (fun _ => 1) (fun _ => 0) { tables := [], indexes := [] }).1,
      connOf e = 0) :=
  claim_C8 (fun _ => 1) (fun _ => 0) { tables := [], indexes := [] } (by decide)

end Reckon
